import Mathlib

/-!
Verification of the MoleculAR quantum-chemistry pipeline
(`backend/services/quantum_chemistry.py`, class `AdvancedQuantumChemistry`).

The Python pipeline is shallowly embedded: machine floats become `ℚ`,
`np.random.uniform` draws become reads from an explicit random stream
`s : ℕ → ℚ` at a cursor position (a draw at cursor `k` consumes `s k`),
and Python exceptions become `Option`/`Except` results.
-/

namespace MoleculAR

/-- Embedding of `np.random.uniform(lo, hi)` given a raw draw `x` from the
underlying generator: numpy computes `lo + (hi - lo) * x` with `x ∈ [0, 1)`. -/
def uniformDraw (lo hi x : ℚ) : ℚ := lo + (hi - lo) * x

/-- Wavelength/intensity pair lists of one spectrum in the mapping returned
by `_calculate_spectra`. -/
structure Spectrum where
  wavelengths : List ℚ
  intensities : List ℚ
deriving DecidableEq

/-- The mapping returned by `_calculate_spectra` (absorption spectrum,
emission spectrum, vibrational modes as frequency/intensity pairs). -/
structure Spectra where
  absorption_spectrum : Spectrum
  emission_spectrum : Spectrum
  vibrational_modes : List (ℚ × ℚ)
deriving DecidableEq

/-- Embedding of the Python comprehension
`[np.random.uniform(a, b) for _ in energy_gaps if gap > 0.1]`
(quantum_chemistry.py lines 508 and 512). Under Python 3 scoping, the name
`gap` is local to the neighbouring wavelength comprehension and is not bound
in this one, nor anywhere in the enclosing scopes, so evaluating the guard
on the first element raises `NameError`; the comprehension completes (with
an empty result, drawing nothing) only when `energy_gaps` is empty. -/
def intensity_comprehension (energy_gaps : List ℚ) : Option (List ℚ) :=
  match energy_gaps with
  | [] => some []
  | _ :: _ => none

/-- Embedding of `_calculate_spectra` (quantum_chemistry.py lines 499-518).
The dict literal is evaluated field by field: the absorption wavelengths
`[1240 / gap for gap in energy_gaps if gap > 0.1]` first (total), then the
absorption intensities via `intensity_comprehension` (which models the
unbound `gap`), then the emission pair likewise, then ten random
vibrational modes, each a `uniform(100, 3000)` frequency and a
`uniform(0.1, 1.0)` intensity. -/
def calculate_spectra (energy_gaps : List ℚ) (s : ℕ → ℚ) : Option Spectra :=
  let ws := (energy_gaps.filter (fun g => decide ((1 : ℚ)/10 < g))).map
    (fun g => 1240 / g)
  match intensity_comprehension energy_gaps with
  | none => none
  | some absInts =>
    match intensity_comprehension energy_gaps with
    | none => none
    | some emInts =>
      some ⟨⟨ws, absInts⟩, ⟨ws, emInts⟩,
        (List.range 10).map
          (fun i => (uniformDraw 100 3000 (s (2 * i)),
                     uniformDraw (1/10) 1 (s (2 * i + 1))))⟩

/-- C3: the claim says `_calculate_spectra` evaluates totally on every gap
list, the unbound-name branch being unreachable. It is reachable: on any
non-empty gap list the intensity comprehensions evaluate the unbound name
`gap` and fail, while the empty gap list does succeed (so the failure is
exactly the non-empty case). The theorem evaluates the embedded code at the
failing input `energy_gaps = [1/2]`. -/
theorem c3_bug_eval :
    calculate_spectra [1/2] (fun _ => 0) = none ∧
    (calculate_spectra [] (fun _ => 0)).isSome = true := by
  constructor <;> rfl

theorem calculate_spectra_some {gaps : List ℚ} {s : ℕ → ℚ} {sp : Spectra}
    (h : calculate_spectra gaps s = some sp) : gaps = [] := by
  cases gaps with
  | nil => rfl
  | cons a l => simp [calculate_spectra, intensity_comprehension] at h

/-- A `QuantumResults` value as actually returned by `_static_simulation`
(quantum_chemistry.py lines 242-248): ground-state energy, excited-state
energies, energy gaps and the spectra mapping. -/
structure StaticResult where
  ground_state_energy : ℚ
  excited_state_energies : List ℚ
  energy_gaps : List ℚ
  spectra : Spectra
deriving DecidableEq

/-- Embedding of `_static_simulation` after the external solver calls
(quantum_chemistry.py lines 229-248), keeping the in-function error
paths: `ground_energy = ground_state_result.eigenvalues[0]` raises
`IndexError` (`none`) on an empty array; `excited_energies =
excited_states_result.eigenvalues[1:6]` is total Python slicing;
`energy_gaps` is the mapped difference list;
`_calculate_molecular_orbitals` (line 235) always succeeds and only fills
the separate `molecular_orbitals` mapping from fresh draws, so it is not
recorded; `_calculate_spectra` (line 240) is then called on the gap list —
it raises `NameError` on every non-empty gap list (the C3 bug), which
aborts the run before the `QuantumResults` at line 242 is built — and the
result is constructed only on its success (`Option.map`). The eigenvalue
arrays come from the external qiskit solvers; `s` is the global generator
stream as `_calculate_spectra` finds it. -/
def static_simulation (groundEigs excitedEigs : List ℚ) (s : ℕ → ℚ) :
    Option StaticResult :=
  match groundEigs with
  | [] => none
  | g :: _ =>
    (calculate_spectra (((excitedEigs.drop 1).take 5).map (fun e => e - g))
        s).map
      (fun sp => ⟨g, (excitedEigs.drop 1).take 5,
        ((excitedEigs.drop 1).take 5).map (fun e => e - g), sp⟩)

theorem static_simulation_some {gs es : List ℚ} {s : ℕ → ℚ}
    {r : StaticResult} (h : static_simulation gs es s = some r) :
    r.excited_state_energies = [] ∧ r.energy_gaps = [] := by
  cases gs with
  | nil => simp [static_simulation] at h
  | cons g t =>
    simp only [static_simulation, Option.map_eq_some'] at h
    obtain ⟨sp, hsp, rfl⟩ := h
    have hgaps := calculate_spectra_some hsp
    exact ⟨List.map_eq_nil_iff.mp hgaps, hgaps⟩

/-- C1: every result actually returned by `_static_simulation` has its
`excited_state_energies` list sorted ascending with every element strictly
greater than `ground_state_energy`. This holds because a run whose excited
slice is non-empty never returns: its gap list is then non-empty, so
`_calculate_spectra` raises before the result is built (the C3 bug), and
every returned result carries the empty excited list, of which both
properties hold vacuously. -/
theorem c1_returned_sorted_above_ground (gs es : List ℚ) (s : ℕ → ℚ)
    (r : StaticResult) (h : static_simulation gs es s = some r) :
    r.excited_state_energies.Sorted (· ≤ ·) ∧
    ∀ x ∈ r.excited_state_energies, r.ground_state_energy < x := by
  obtain ⟨he, -⟩ := static_simulation_some h
  rw [he]
  exact ⟨List.sorted_nil, by simp⟩

/-- C1 witness: the theorem applied to a reachable run — ground eigenvalue
array `[0]` and excited-solver eigenvalue array `[0]`, whose `[1:6]` slice
is empty, so the run completes. -/
theorem c1_witness :
    ∃ r : StaticResult,
      static_simulation [0] [0] (fun _ => 0) = some r ∧
      (r.excited_state_energies.Sorted (· ≤ ·) ∧
       ∀ x ∈ r.excited_state_energies, r.ground_state_energy < x) :=
  ⟨_, rfl, c1_returned_sorted_above_ground [0] [0] (fun _ => 0) _ rfl⟩

/-- C2: every result actually returned by `_static_simulation` has
`energy_gaps` of the same length as `excited_state_energies`, equal to the
list of differences `excited[i] - ground` (exactly, hence within any
tolerance), with every gap non-negative. This holds because every
returned result has empty gap and excited lists: a non-empty gap list
makes `_calculate_spectra` raise before the result is built (the C3 bug),
and all three properties hold of the empty lists. -/
theorem c2_returned_gaps (gs es : List ℚ) (s : ℕ → ℚ)
    (r : StaticResult) (h : static_simulation gs es s = some r) :
    r.energy_gaps.length = r.excited_state_energies.length ∧
    r.energy_gaps =
      r.excited_state_energies.map (fun e => e - r.ground_state_energy) ∧
    ∀ y ∈ r.energy_gaps, 0 ≤ y := by
  obtain ⟨he, hg⟩ := static_simulation_some h
  rw [he, hg]
  simp

/-- C2 witness: the theorem applied to the same reachable run as the C1
witness. -/
theorem c2_witness :
    ∃ r : StaticResult,
      static_simulation [0] [0] (fun _ => 0) = some r ∧
      (r.energy_gaps.length = r.excited_state_energies.length ∧
       r.energy_gaps =
         r.excited_state_energies.map (fun e => e - r.ground_state_energy) ∧
       ∀ y ∈ r.energy_gaps, 0 ≤ y) :=
  ⟨_, rfl, c2_returned_gaps [0] [0] (fun _ => 0) _ rfl⟩

/-- Per-stage confidence scores returned by `_calculate_confidence_scores`. -/
structure ConfidenceScores where
  ground_state_confidence : ℚ
  excited_states_confidence : ℚ
  spectral_confidence : ℚ
  overall_confidence : ℚ
deriving DecidableEq

/-- Embedding of `_calculate_confidence_scores` (quantum_chemistry.py lines
453-460): four fresh `np.random.uniform` draws over the ranges
(0.8, 0.95), (0.7, 0.9), (0.75, 0.9), (0.8, 0.92), consuming stream
positions `k`, `k+1`, `k+2`, `k+3` of the unseeded global generator. -/
def calculate_confidence_scores (s : ℕ → ℚ) (k : ℕ) : ConfidenceScores :=
  ⟨uniformDraw (4/5) (19/20) (s k),
   uniformDraw (7/10) (9/10) (s (k + 1)),
   uniformDraw (3/4) (9/10) (s (k + 2)),
   uniformDraw (4/5) (23/25) (s (k + 3))⟩

/-- Embedding of `_calculate_expectation_value` (quantum_chemistry.py lines
333-340): the returned expectation value is a fresh
`np.random.uniform(0.5, 1.0)` draw, ignoring the circuit and state. -/
def calculate_expectation_value (s : ℕ → ℚ) (k : ℕ) : ℚ :=
  uniformDraw (1/2) 1 (s k)

/-- Random stream refuting run-to-run agreement: the first run consumes
positions 0-3, the second run of the unseeded generator starts at
position 4 and reads different values. -/
def run_twice_stream : ℕ → ℚ := fun i => if i < 4 then 0 else 1

/-- C4: the claim says two runs of the pipeline on the same
`(config, geometry)` agree within tolerance, the confidence scores and
expectation values being the same functions of the inputs. They are drawn
from the unseeded global generator: a second run consuming the next stream
positions yields an overall confidence of 0.92 against 0.8 (a 0.12 gap,
the full width of the drawing range) and an expectation value of 1 against
0.5, so no tolerance tight enough to be meaningful makes the runs agree. -/
theorem c4_counterexample :
    calculate_confidence_scores run_twice_stream 0 ≠
      calculate_confidence_scores run_twice_stream 4 ∧
    (calculate_confidence_scores run_twice_stream 0).overall_confidence = 4/5 ∧
    (calculate_confidence_scores run_twice_stream 4).overall_confidence = 23/25 ∧
    calculate_expectation_value run_twice_stream 0 = 1/2 ∧
    calculate_expectation_value run_twice_stream 4 = 1 := by
  refine ⟨?_, by norm_num [calculate_confidence_scores, run_twice_stream, uniformDraw],
    by norm_num [calculate_confidence_scores, run_twice_stream, uniformDraw],
    by norm_num [calculate_expectation_value, run_twice_stream, uniformDraw],
    by norm_num [calculate_expectation_value, run_twice_stream, uniformDraw]⟩
  intro h
  have h2 := congrArg ConfidenceScores.overall_confidence h
  norm_num [calculate_confidence_scores, run_twice_stream, uniformDraw] at h2

/-- C4 (amended): every randomly produced quantity is a deterministic
function of the consumed random draws, so two runs agree exactly whenever
they consume identical draws — which a fixed seed would provide; the
unseeded code gives no such guarantee. -/
theorem c4_amended (s1 s2 : ℕ → ℚ) (k1 k2 : ℕ)
    (h : ∀ i < 4, s1 (k1 + i) = s2 (k2 + i)) :
    calculate_confidence_scores s1 k1 = calculate_confidence_scores s2 k2 ∧
    calculate_expectation_value s1 k1 = calculate_expectation_value s2 k2 := by
  have h0 := h 0 (by norm_num)
  have h1 := h 1 (by norm_num)
  have h2 := h 2 (by norm_num)
  have h3 := h 3 (by norm_num)
  simp only [Nat.add_zero] at h0
  constructor
  · simp only [calculate_confidence_scores, h0, h1, h2, h3]
  · simp only [calculate_expectation_value, h0]

/-- C4 witness: the amended theorem applied to two streams that agree on
the four consumed positions. -/
theorem c4_witness :
    calculate_confidence_scores (fun _ => 1/2) 0 =
      calculate_confidence_scores (fun i => if i < 6 then 1/2 else 0) 2 ∧
    calculate_expectation_value (fun _ => 1/2) 0 =
      calculate_expectation_value (fun i => if i < 6 then 1/2 else 0) 2 :=
  c4_amended (fun _ => 1/2) (fun i => if i < 6 then 1/2 else 0) 0 2
    (by intro i hi; interval_cases i <;> norm_num)

/-- One spectral peak dict as built by `_identify_absorption_peaks`:
frequency, intensity, wavelength. -/
structure Peak where
  frequency : ℚ
  intensity : ℚ
  wavelength : ℚ
deriving DecidableEq

/-- Embedding of `_identify_absorption_peaks` (quantum_chemistry.py lines
405-415): each frequency strictly above the 0.1 noise floor is appended as
a peak with a fresh `uniform(0.1, 1.0)` intensity draw (one stream position
per appended peak) and wavelength `1240 / freq`; other frequencies are
skipped. -/
def identify_absorption_peaks (freqs : List ℚ) (s : ℕ → ℚ) (k : ℕ) :
    List Peak :=
  match freqs with
  | [] => []
  | f :: rest =>
    if (1 : ℚ)/10 < f then
      ⟨f, uniformDraw (1/10) 1 (s k), 1240 / f⟩ ::
        identify_absorption_peaks rest s (k + 1)
    else identify_absorption_peaks rest s k

/-- Embedding of `_identify_emission_peaks` (quantum_chemistry.py lines
417-420): it simply delegates to `_identify_absorption_peaks` on the same
frequency list (the intensity draws it consumes come from wherever the
global generator then stands, hence the separate stream and cursor). -/
def identify_emission_peaks (freqs : List ℚ) (s : ℕ → ℚ) (k : ℕ) :
    List Peak :=
  identify_absorption_peaks freqs s k

theorem absorption_peaks_map_frequency (freqs : List ℚ) (s : ℕ → ℚ) (k : ℕ) :
    (identify_absorption_peaks freqs s k).map Peak.frequency =
      freqs.filter (fun f => decide ((1 : ℚ)/10 < f)) := by
  induction freqs generalizing k with
  | nil => rfl
  | cons f rest ih =>
    rw [identify_absorption_peaks, List.filter_cons]
    by_cases hf : (1 : ℚ)/10 < f
    · rw [if_pos hf, List.map_cons, ih, if_pos (by exact decide_eq_true hf)]
    · rw [if_neg hf, ih, if_neg (by simp only [decide_eq_true_eq]; exact hf)]

theorem absorption_peaks_mem (freqs : List ℚ) (s : ℕ → ℚ) (k : ℕ) :
    ∀ p ∈ identify_absorption_peaks freqs s k,
      p.wavelength = 1240 / p.frequency ∧ (1 : ℚ)/10 < p.frequency := by
  induction freqs generalizing k with
  | nil => intro p hp; simp [identify_absorption_peaks] at hp
  | cons f rest ih =>
    intro p hp
    rw [identify_absorption_peaks] at hp
    by_cases hf : (1 : ℚ)/10 < f
    · rw [if_pos hf] at hp
      rcases List.mem_cons.mp hp with h | h
      · subst h; exact ⟨rfl, hf⟩
      · exact ih (k + 1) p h
    · rw [if_neg hf] at hp
      exact ih k p hp

theorem absorption_peaks_sound (freqs : List ℚ) (s : ℕ → ℚ) (k : ℕ) :
    ((identify_absorption_peaks freqs s k).all
      (fun p => decide (p.wavelength = 1240 / p.frequency) &&
                decide ((1 : ℚ)/10 < p.frequency))) = true := by
  rw [List.all_eq_true]
  intro p hp
  obtain ⟨h1, h2⟩ := absorption_peaks_mem freqs s k p hp
  simp only [Bool.and_eq_true, decide_eq_true_eq]
  exact ⟨h1, h2⟩

/-- C5: every peak reported by the spectral classification has
`wavelength = 1240 / frequency` and a frequency strictly above the 0.1
noise floor, and the reported frequencies are exactly the input
frequencies above the floor (so frequencies at or below 0.1 are never
reported), for every frequency list and every state of the random
generator supplying the intensities. -/
theorem c5_peak_wavelengths (freqs : List ℚ) (s : ℕ → ℚ) (k : ℕ) :
    (identify_absorption_peaks freqs s k).map Peak.frequency =
      freqs.filter (fun f => decide ((1 : ℚ)/10 < f)) ∧
    ((identify_absorption_peaks freqs s k).all
      (fun p => decide (p.wavelength = 1240 / p.frequency) &&
                decide ((1 : ℚ)/10 < p.frequency))) = true :=
  ⟨absorption_peaks_map_frequency freqs s k, absorption_peaks_sound freqs s k⟩

theorem absorption_peaks_map_wavelength (freqs : List ℚ) (s : ℕ → ℚ) (k : ℕ) :
    (identify_absorption_peaks freqs s k).map Peak.wavelength =
      (freqs.filter (fun f => decide ((1 : ℚ)/10 < f))).map
        (fun f => 1240 / f) := by
  induction freqs generalizing k with
  | nil => rfl
  | cons f rest ih =>
    rw [identify_absorption_peaks, List.filter_cons]
    by_cases hf : (1 : ℚ)/10 < f
    · rw [if_pos hf, List.map_cons, ih, if_pos (by exact decide_eq_true hf),
        List.map_cons]
    · rw [if_neg hf, ih, if_neg (by simp only [decide_eq_true_eq]; exact hf)]

/-- C10: emission classification is the same function as absorption
classification, so on any frequency list — whatever intensity draws each
call happens to consume — the emission-peak list and the absorption-peak
list carry the same frequencies and the same wavelengths in the same
order. -/
theorem c10_emission_eq_absorption (freqs : List ℚ)
    (s1 s2 : ℕ → ℚ) (k1 k2 : ℕ) :
    (identify_emission_peaks freqs s1 k1).map Peak.frequency =
      (identify_absorption_peaks freqs s2 k2).map Peak.frequency ∧
    (identify_emission_peaks freqs s1 k1).map Peak.wavelength =
      (identify_absorption_peaks freqs s2 k2).map Peak.wavelength := by
  unfold identify_emission_peaks
  rw [absorption_peaks_map_frequency, absorption_peaks_map_frequency,
    absorption_peaks_map_wavelength, absorption_peaks_map_wavelength]
  exact ⟨rfl, rfl⟩

/-- The three molecular-orbital quantities added by
`_extract_physical_properties`. -/
structure PhysicalProperties where
  homo_lumo_gap : ℚ
  ionization_potential : ℚ
  electron_affinity : ℚ
deriving DecidableEq

/-- Embedding of the property computation of `_extract_physical_properties`
(quantum_chemistry.py lines 471-475):
`homo_lumo_gap = energy_gaps[0] if energy_gaps else 0`,
`ionization_potential = -ground_state_energy`,
`electron_affinity = excited_state_energies[0] - ground_state_energy if
excited_state_energies else 0`. -/
def extract_physical_properties (ground : ℚ) (excited gaps : List ℚ) :
    PhysicalProperties :=
  ⟨gaps.headD 0, -ground,
   match excited with
   | [] => 0
   | e :: _ => e - ground⟩

/-- Embedding of the `error_analysis` mapping attached by the same method
(quantum_chemistry.py lines 478-482): three fresh `np.random.uniform` draws
over (0.01, 0.05), (0.02, 0.08), (0.03, 0.1) — statistical, systematic and
total error. -/
def extract_error_analysis (s : ℕ → ℚ) (k : ℕ) : ℚ × ℚ × ℚ :=
  (uniformDraw (1/100) (1/20) (s k),
   uniformDraw (1/50) (2/25) (s (k + 1)),
   uniformDraw (3/100) (1/10) (s (k + 2)))

/-- Definition following the words of the spec, for comparison with the
code: the smallest positive element of the energy-gap list
(`none` when no gap is positive). -/
def spec_smallest_positive_gap (gaps : List ℚ) : Option ℚ :=
  match gaps.filter (fun g => decide ((0 : ℚ) < g)) with
  | [] => none
  | x :: xs => some (xs.foldl min x)

/-- Definition following the words of the spec, for comparison with the
code: the lowest excited-state energy minus the ground-state energy. -/
def spec_electron_affinity (ground : ℚ) (excited : List ℚ) : Option ℚ :=
  match excited with
  | [] => none
  | x :: xs => some (xs.foldl min x - ground)

theorem foldl_min_of_le (x : ℚ) (xs : List ℚ) (h : ∀ y ∈ xs, x ≤ y) :
    xs.foldl min x = x := by
  induction xs with
  | nil => rfl
  | cons y ys ih =>
    rw [List.foldl_cons, min_eq_left (h y (by simp))]
    exact ih (fun z hz => h z (by simp [hz]))

/-- C6: the claim says the HOMO-LUMO gap is the smallest positive energy
gap and the whole step is deterministic. The code takes `energy_gaps[0]`
unconditionally: on the gap list `[3, 2]` it reports 3 while the smallest
positive gap is 2; and the error-analysis values attached in the same step
are fresh unseeded random draws, which two different generator states make
differ. -/
theorem c6_counterexample :
    (extract_physical_properties 0 [1] [3, 2]).homo_lumo_gap = 3 ∧
    spec_smallest_positive_gap [3, 2] = some 2 ∧
    (extract_physical_properties 0 [1] [3, 2]).homo_lumo_gap ≠ 2 ∧
    extract_error_analysis (fun _ => 0) 0 ≠
      extract_error_analysis (fun _ => 1/2) 0 := by
  refine ⟨rfl, by norm_num [spec_smallest_positive_gap], by norm_num [extract_physical_properties], ?_⟩
  intro h
  have h2 := congrArg Prod.fst h
  norm_num [extract_error_analysis, uniformDraw] at h2

/-- C6 (amended): ionization potential is the negation of the ground-state
energy unconditionally; the code reads `energy_gaps[0]` and
`excited_state_energies[0]`, so whenever the gap list is sorted ascending
with positive entries the reported HOMO-LUMO gap is the smallest positive
gap, and whenever the excited list is sorted ascending the reported
electron affinity is the lowest excited energy minus the ground energy;
the three property values are deterministic in those inputs, while the
error-analysis triple attached in the same step is determined only by the
three random draws it consumes. -/
theorem c6_amended (ground : ℚ) (excited gaps : List ℚ)
    (hgs : gaps.Sorted (· ≤ ·)) (hgp : ∀ x ∈ gaps, 0 < x)
    (hes : excited.Sorted (· ≤ ·)) :
    (extract_physical_properties ground excited gaps).ionization_potential
      = -ground ∧
    (gaps ≠ [] → spec_smallest_positive_gap gaps =
      some (extract_physical_properties ground excited gaps).homo_lumo_gap) ∧
    (excited ≠ [] → spec_electron_affinity ground excited =
      some (extract_physical_properties ground excited gaps).electron_affinity) ∧
    (∀ s1 s2 : ℕ → ℚ, ∀ k1 k2 : ℕ, (∀ i < 3, s1 (k1 + i) = s2 (k2 + i)) →
      extract_error_analysis s1 k1 = extract_error_analysis s2 k2) := by
  refine ⟨rfl, ?_, ?_, ?_⟩
  · intro hne
    have hfil : gaps.filter (fun g => decide ((0 : ℚ) < g)) = gaps :=
      List.filter_eq_self.mpr (fun a ha => decide_eq_true (hgp a ha))
    cases gaps with
    | nil => exact absurd rfl hne
    | cons g rest =>
      have hle : ∀ y ∈ rest, g ≤ y :=
        fun y hy => (List.sorted_cons.mp hgs).1 y hy
      simp only [spec_smallest_positive_gap, hfil, foldl_min_of_le g rest hle,
        extract_physical_properties, List.headD_cons]
  · intro hne
    cases excited with
    | nil => exact absurd rfl hne
    | cons e rest =>
      have hle : ∀ y ∈ rest, e ≤ y :=
        fun y hy => (List.sorted_cons.mp hes).1 y hy
      simp only [spec_electron_affinity, foldl_min_of_le e rest hle,
        extract_physical_properties]
  · intro s1 s2 k1 k2 h
    have h0 := h 0 (by norm_num)
    have h1 := h 1 (by norm_num)
    have h2 := h 2 (by norm_num)
    simp only [Nat.add_zero] at h0
    simp only [extract_error_analysis, h0, h1, h2]

/-- C6 witness: the amended theorem applied at ground energy `-1`, excited
energies `[1, 2]` and gap list `[2, 3]`. -/
theorem c6_witness :
    (extract_physical_properties (-1) [1, 2] [2, 3]).ionization_potential
      = -(-1) ∧
    (([2, 3] : List ℚ) ≠ [] → spec_smallest_positive_gap [2, 3] =
      some (extract_physical_properties (-1) [1, 2] [2, 3]).homo_lumo_gap) ∧
    (([1, 2] : List ℚ) ≠ [] → spec_electron_affinity (-1) [1, 2] =
      some (extract_physical_properties (-1) [1, 2] [2, 3]).electron_affinity) ∧
    (∀ s1 s2 : ℕ → ℚ, ∀ k1 k2 : ℕ, (∀ i < 3, s1 (k1 + i) = s2 (k2 + i)) →
      extract_error_analysis s1 k1 = extract_error_analysis s2 k2) :=
  c6_amended (-1) [1, 2] [2, 3] (by norm_num) (by norm_num) (by norm_num)

/-- The keys of the `noise_models` dict built by `_setup_noise_models`. -/
def noise_model_keys : List String := ["ibm_nairobi", "ibm_perth", "ideal"]

/-- Embedding of the confidence-score path of the pipeline
(quantum_chemistry.py lines 116-117 and 422-441): `simulate_molecule` calls
`_apply_error_mitigation` only when `config.error_mitigation` is set;
inside it, the noise-model branch applies the two mitigation passes (both
of which return the results unchanged) and `confidence_scores` is then
always assigned from `_calculate_confidence_scores`; when the flag is
unset, `confidence_scores` keeps its `None` default. -/
def pipeline_confidence_scores (error_mitigation : Bool)
    (noise_model : Option String) (s : ℕ → ℚ) (k : ℕ) :
    Option ConfidenceScores :=
  if error_mitigation then
    some (calculate_confidence_scores s k)
  else none

/-- C7: the claim says every simulation run gets per-stage confidence
scores. A run with `error_mitigation = False` never calls
`_apply_error_mitigation`, so `confidence_scores` stays `None`. -/
theorem c7_counterexample :
    pipeline_confidence_scores false none (fun _ => 0) 0 = none ∧
    pipeline_confidence_scores false (some "ibm_nairobi") (fun _ => 0) 0
      = none := ⟨rfl, rfl⟩

/-- C7 (amended): whenever error mitigation is enabled (its default),
per-stage confidence scores for ground state, excited states, spectral and
overall are computed regardless of the configured noise model and of
whether the mitigation passes did anything, and — the raw generator
draws lying in `[0, 1)` — each score lies in `[0, 1]`. -/
theorem c7_amended (noise_model : Option String) (s : ℕ → ℚ) (k : ℕ)
    (hs : ∀ i, 0 ≤ s i ∧ s i < 1) :
    ∃ c : ConfidenceScores,
      pipeline_confidence_scores true noise_model s k = some c ∧
      0 ≤ c.ground_state_confidence ∧ c.ground_state_confidence ≤ 1 ∧
      0 ≤ c.excited_states_confidence ∧ c.excited_states_confidence ≤ 1 ∧
      0 ≤ c.spectral_confidence ∧ c.spectral_confidence ≤ 1 ∧
      0 ≤ c.overall_confidence ∧ c.overall_confidence ≤ 1 := by
  refine ⟨calculate_confidence_scores s k, rfl, ?_⟩
  obtain ⟨h0a, h0b⟩ := hs k
  obtain ⟨h1a, h1b⟩ := hs (k + 1)
  obtain ⟨h2a, h2b⟩ := hs (k + 2)
  obtain ⟨h3a, h3b⟩ := hs (k + 3)
  simp only [calculate_confidence_scores, uniformDraw]
  refine ⟨by linarith, by linarith, by linarith, by linarith,
    by linarith, by linarith, by linarith, by linarith⟩

/-- C7 witness: the amended theorem applied with noise model
`ibm_nairobi` and the constant raw-draw stream `1/2`. -/
theorem c7_witness :
    ∃ c : ConfidenceScores,
      pipeline_confidence_scores true (some "ibm_nairobi")
        (fun _ => 1/2) 0 = some c ∧
      0 ≤ c.ground_state_confidence ∧ c.ground_state_confidence ≤ 1 ∧
      0 ≤ c.excited_states_confidence ∧ c.excited_states_confidence ≤ 1 ∧
      0 ≤ c.spectral_confidence ∧ c.spectral_confidence ≤ 1 ∧
      0 ≤ c.overall_confidence ∧ c.overall_confidence ≤ 1 :=
  c7_amended (some "ibm_nairobi") (fun _ => 1/2) 0
    (fun i => by norm_num)

/-- The two gradient-free optimizers the service selects between. -/
inductive OptimizerKind where
  | slsqp
  | cobyla
deriving DecidableEq

/-- An optimizer instance as constructed by `_get_optimizer`: its kind and
its `maxiter` iteration budget. -/
structure Optimizer where
  kind : OptimizerKind
  maxiter : ℕ
deriving DecidableEq

/-- Embedding of `_get_optimizer` (quantum_chemistry.py lines 520-527):
`SLSQP(maxiter=100)` for the name `slsqp`, `COBYLA(maxiter=100)` for
`cobyla`, and `SLSQP(maxiter=100)` as the fallback for any other name. -/
def get_optimizer (name : String) : Optimizer :=
  if name = "slsqp" then ⟨.slsqp, 100⟩
  else if name = "cobyla" then ⟨.cobyla, 100⟩
  else ⟨.slsqp, 100⟩

/-- Embedding of the ground-state solving step of `_static_simulation`
(quantum_chemistry.py lines 213-220) together with the exception handling
of `simulate_molecule` (lines 125-127): the VQE factory is built with the
single configured optimizer and `ground_state_solver.solve(problem)` is
invoked exactly once; any exception it raises is logged and re-raised
unchanged, with no retry of any kind. The external solver is the `solve`
parameter. -/
def static_ground_solve (solve : Optimizer → Except String ℚ)
    (optimizer_name : String) : Except String ℚ :=
  solve (get_optimizer optimizer_name)

/-- External-solver behaviour exhibiting non-convergence of SLSQP while
COBYLA, the alternate optimizer, would converge. -/
def solve_slsqp_diverges : Optimizer → Except String ℚ := fun o =>
  match o.kind with
  | .slsqp => Except.error "iteration budget exhausted"
  | .cobyla => Except.ok (-1)

/-- C8: the claim says the iteration budget is 100 (which holds) and that
an exhausted budget surfaces as `ConvergenceError` only after one
automatic retry with the alternate optimizer. No retry exists: with a
solver whose SLSQP run exhausts its budget while COBYLA would succeed, a
run configured with `slsqp` surfaces the failure directly — had the
claimed retry been attempted, the result would have been the COBYLA
success. (No `ConvergenceError` type exists anywhere in the repository
either; the raw exception propagates.) -/
theorem c8_counterexample :
    static_ground_solve solve_slsqp_diverges "slsqp" =
      Except.error "iteration budget exhausted" ∧
    solve_slsqp_diverges ⟨.cobyla, 100⟩ = Except.ok (-1) := ⟨rfl, rfl⟩

/-- C8 (amended): the variational solver is configured with a fixed
iteration budget of 100 for every optimizer name (`slsqp` and unknown
names select SLSQP, `cobyla` selects COBYLA), and the solver is invoked
exactly once with that optimizer — a failure propagates to the caller with
no automatic retry with the alternate optimizer. -/
theorem c8_amended (name : String) (solve : Optimizer → Except String ℚ) :
    (get_optimizer name).maxiter = 100 ∧
    static_ground_solve solve name = solve (get_optimizer name) ∧
    (name = "cobyla" → (get_optimizer name).kind = .cobyla) ∧
    (name ≠ "cobyla" → (get_optimizer name).kind = .slsqp) := by
  refine ⟨?_, rfl, ?_, ?_⟩
  · unfold get_optimizer
    split <;> [rfl; (split <;> rfl)]
  · intro h
    subst h
    rfl
  · intro h
    unfold get_optimizer
    by_cases hs : name = "slsqp"
    · rw [if_pos hs]
    · rw [if_neg hs, if_neg h]

/-- C8 witness: the amended theorem applied at the optimizer names
`cobyla` and `unknown`, with a solver returning energy `-1`. -/
theorem c8_witness :
    (get_optimizer "cobyla").maxiter = 100 ∧
    (get_optimizer "cobyla").kind = OptimizerKind.cobyla ∧
    (get_optimizer "unknown").kind = OptimizerKind.slsqp ∧
    static_ground_solve (fun _ => Except.ok (-1)) "unknown" =
      Except.ok (-1) := by
  refine ⟨(c8_amended "cobyla" (fun _ => Except.ok (-1))).1,
    (c8_amended "cobyla" (fun _ => Except.ok (-1))).2.2.1 rfl,
    (c8_amended "unknown" (fun _ => Except.ok (-1))).2.2.2 (by decide),
    (c8_amended "unknown" (fun _ => Except.ok (-1))).2.1⟩

/-- The electron-structure data the active-space contract concerns:
spatial-orbital count and electron count of a problem. -/
structure ElectronicProblem where
  num_spatial_orbitals : ℕ
  num_electrons : ℕ
deriving DecidableEq

/-- Qubit count of a problem under the second-quantized encodings used by
the service: one qubit per spin orbital, i.e. twice the spatial-orbital
count. -/
def qubit_count (p : ElectronicProblem) : ℕ := 2 * p.num_spatial_orbitals

/-- Modelled from the spec: the `ActiveSpaceTransformer.transform` call in
`_prepare_electronic_structure_problem` (quantum_chemistry.py lines
151-156) is qiskit_nature library code, not part of this repository.
Following spec §4.2, the reduction freezes doubly occupied core orbitals —
so the removed electrons `total - active` come in pairs and the requested
active electron count cannot exceed the total — and truncates the virtual
space to the requested orbital count, which cannot exceed the total;
violating any of these is a configuration failure (`none`). A successful
transform yields a problem with the requested active electron and
spatial-orbital counts. -/
def active_space_transform (num_electrons num_spatial_orbitals : ℕ)
    (p : ElectronicProblem) : Option ElectronicProblem :=
  if num_electrons ≤ p.num_electrons ∧
     num_spatial_orbitals ≤ p.num_spatial_orbitals ∧
     (p.num_electrons - num_electrons) % 2 = 0 then
    some ⟨num_spatial_orbitals, num_electrons⟩
  else none

/-- Embedding of the active-space branch of
`_prepare_electronic_structure_problem` (quantum_chemistry.py lines
150-158): when `config.active_space = (electrons, orbitals)` is given the
transformer is applied, otherwise the problem is returned untouched. -/
def prepare_problem_active_space (p : ElectronicProblem)
    (active_space : Option (ℕ × ℕ)) : Option ElectronicProblem :=
  match active_space with
  | none => some p
  | some (ne, no) => active_space_transform ne no p

/-- C9: every successful active-space reduction yields a problem whose
qubit count is at most the qubit count of the unreduced problem and whose
electron-count parity equals the original parity. -/
theorem c9_active_space (ne no : ℕ) (p q : ElectronicProblem)
    (h : active_space_transform ne no p = some q) :
    qubit_count q ≤ qubit_count p ∧
    q.num_electrons % 2 = p.num_electrons % 2 := by
  unfold active_space_transform at h
  split at h
  case isFalse => exact absurd h (by simp)
  case isTrue hc =>
    obtain ⟨he, ho, hp⟩ := hc
    obtain rfl := Option.some.inj h
    constructor
    · show 2 * no ≤ 2 * p.num_spatial_orbitals
      omega
    · show ne % 2 = p.num_electrons % 2
      omega

/-- C9 witness: the theorem applied to a 6-electron, 4-orbital problem
reduced to a (2 electrons, 2 orbitals) active space. -/
theorem c9_witness :
    qubit_count ⟨2, 2⟩ ≤ qubit_count ⟨4, 6⟩ ∧
    (⟨2, 2⟩ : ElectronicProblem).num_electrons % 2 =
      (⟨4, 6⟩ : ElectronicProblem).num_electrons % 2 :=
  c9_active_space 2 2 ⟨4, 6⟩ ⟨2, 2⟩ (by decide)

end MoleculAR
